import Mathlib

/-!
Verification of the document assembly engine of `slackdump2markdown`
(`src/main.py`).

The program walks a chronologically sorted list of Slack messages and
builds a list of Google-Docs batch-update requests: for each message a
header `insertText`, three `updateTextStyle` requests (base font size,
bold author, gray timestamp), and per attachment either a caption plus
inline image / fallback text (for files) or a URL insert plus a
hyperlink style (for links).  It also produces an independent markdown
rendering (`create_markdown`).

The shallow embedding below mirrors the request-building portion of
`create_formatted_googledoc` and the string building of
`create_markdown`.  External effects (filesystem existence checks,
Drive uploads, the batch-update call) are modelled by oracle fields on
the attachment record (`existsLocally`, `uploadFails`, `mimeType`,
`webContentLink`, `fileId`) and by an explicit `Except`/outcome
pipeline; the request arithmetic itself is translated verbatim.
Python `len` on `str` counts Unicode code points, matching
`String.length` on Lean characters.
-/

namespace SD

/-- RGB color payload of an `updateTextStyle` request.  The source uses
the float constant `0.5` for each channel; the value is the exact
dyadic rational 1/2, modelled as `Rat`. -/
structure RgbColor where
  red : Rat
  green : Rat
  blue : Rat
deriving DecidableEq, Repr

/-- The text-style payloads that occur in `create_formatted_googledoc`:
font size in PT, bold, a foreground color, or a hyperlink.  The
`fields` string of the API request is determined by the variant and is
not modelled separately. -/
inductive TextStyle where
  | fontSize (magnitudePt : Nat)
  | bold
  | foregroundColor (c : RgbColor)
  | link (url : String)
deriving DecidableEq, Repr

/-- One Google-Docs batch-update request, as built by
`create_formatted_googledoc` (src/main.py).  Offsets are the `index` /
`startIndex` / `endIndex` numbers of the JSON payloads. -/
inductive Request where
  | insertText (index : Nat) (text : String)
  | updateParagraphStyle (startIndex endIndex : Nat) (namedStyleType : String)
  | updateTextStyle (startIndex endIndex : Nat) (style : TextStyle)
  | insertInlineImage (index : Nat) (uri : String) (heightPt widthPt : Nat)
deriving DecidableEq, Repr

/-- An attachment record as produced by `parse_json_files`: a file
(dict keys `name`, `url`, `local_path`) or a link (`title`, `url`).
The four trailing fields of `file` are oracle values for the external
collaborators consulted at build time: whether `os.path.exists` finds
the local file, whether the Drive upload raises, and the `mimeType`,
`webContentLink` and `id` returned by the upload. -/
inductive Attachment where
  | file (name url localPath : String) (existsLocally uploadFails : Bool)
      (mimeType webContentLink fileId : String)
  | link (title url : String)
deriving DecidableEq, Repr

/-- One conversation entry as produced by `parse_json_files`:
dict keys `date`, `time`, `user`, `text`, `attachments`. -/
structure Message where
  date : String
  time : String
  user : String
  text : String
  attachments : List Attachment
deriving DecidableEq, Repr

/-- Prefix test on strings over their code-point sequences, the
semantics of Python's `str.startswith` and of an anchored `re.match`
(Python `len`/indexing and Lean `String.data` both work on Unicode
code points). -/
def strStartsWith (s p : String) : Bool :=
  p.data.isPrefixOf s.data

/-- Suffix test on strings over their code-point sequences, the
semantics of Python's `str.endswith`. -/
def strEndsWith (s p : String) : Bool :=
  p.data.isSuffixOf s.data

/-- The body string used in the header, mirroring src/main.py lines
147-150: `re.match` of the anchored pattern `^<(http|https)://` is a
prefix test, so the body is replaced by the empty string exactly when
it starts with `<http://` or `<https://`. -/
def headerBody (text : String) : String :=
  if strStartsWith text "<http://" || strStartsWith text "<https://" then ""
  else text

/-- Requests emitted for one attachment, mirroring src/main.py lines
207-344.  `startIndex`, `user`, `timestamp` and `text` are the local
variables of the message loop, used verbatim in the index formulas. -/
def attachmentRequests (startIndex : Nat) (user timestamp text : String) :
    Attachment → List Request
  | Attachment.file name _ _ existsLocally _ mimeType webContentLink fileId =>
    if existsLocally then
      Request.insertText
          (startIndex + user.length + timestamp.length + text.length + 4)
          ("\n\nAttachment: " ++ name ++ "\n\n")
        ::
        (if strStartsWith mimeType "image/" then
          if webContentLink ≠ "" then
            [Request.insertInlineImage
                (startIndex + user.length + timestamp.length + text.length + 5
                  + name.length + 14)
                webContentLink 200 200]
          else
            [Request.insertText
                (startIndex + user.length + timestamp.length + text.length + 5
                  + name.length + 12)
                ("Image could not be inserted. View it here: https://drive.google.com/file/d/"
                  ++ fileId ++ "/view\n\n")]
        else
          [Request.insertText
              (startIndex + user.length + timestamp.length + text.length + 5
                + name.length + 12)
              ("Link to file: https://drive.google.com/file/d/" ++ fileId
                ++ "/view\n\n")])
    else []
  | Attachment.link _ url =>
    [Request.insertText
        (startIndex + user.length + timestamp.length + text.length + 4)
        ("\n\n" ++ url ++ "\n\n"),
      Request.updateTextStyle
        (startIndex + user.length + timestamp.length + text.length + 4)
        (startIndex + user.length + timestamp.length + text.length + 4
          + url.length + 6)
        (TextStyle.link url)]

/-- Requests emitted for a list of attachments, in order (the
`for attachment in message["attachments"]` loop). -/
def attachmentsRequests (startIndex : Nat) (user timestamp text : String) :
    List Attachment → List Request
  | [] => []
  | a :: rest =>
    attachmentRequests startIndex user timestamp text a
      ++ attachmentsRequests startIndex user timestamp text rest

/-- Requests emitted for one message at a given `start_index`,
mirroring the body of the message loop, src/main.py lines 144-344:
the header `insertText`, the font-size, bold and timestamp-color
`updateTextStyle` requests, then the attachment requests. -/
def messageRequests (startIndex : Nat) (m : Message) : List Request :=
  let timestamp := m.date ++ " " ++ m.time
  let user := m.user
  let text := headerBody m.text
  [Request.insertText startIndex
      (user ++ " [" ++ timestamp ++ "]: " ++ text ++ "\n\n"),
    Request.updateTextStyle startIndex
      (startIndex + user.length + timestamp.length + text.length + 5)
      (TextStyle.fontSize 11),
    Request.updateTextStyle startIndex (startIndex + user.length)
      TextStyle.bold,
    Request.updateTextStyle (startIndex + user.length + 1)
      (startIndex + user.length + timestamp.length + 3)
      (TextStyle.foregroundColor ⟨1/2, 1/2, 1/2⟩)]
  ++ attachmentsRequests startIndex user timestamp text m.attachments

/-- The two initial requests of the stream (src/main.py lines 128-142):
the title insert at index 1 and the HEADING_1 paragraph style. -/
def titleRequests (folderName : String) : List Request :=
  [Request.insertText 1 (folderName ++ "\n\n"),
    Request.updateParagraphStyle 1 folderName.length "HEADING_1"]

/-- Concatenation of the texts of all `insertText` requests of a
stream, in order: the string the source joins at src/main.py line 153
(`"".join(req.get("insertText", \x7b\x7d).get("text", "") for req in requests)`). -/
def concatInserts : List Request → String
  | [] => ""
  | Request.insertText _ t :: rest => t ++ concatInserts rest
  | _ :: rest => concatInserts rest

/-- `start_index` as computed at src/main.py lines 152-154: the length
of the join of all previously inserted texts. -/
def insertedLen (reqs : List Request) : Nat := (concatInserts reqs).length

/-- The full request stream for a conversation list and document title,
mirroring the assembly loop of `create_formatted_googledoc`: start from
the title requests, then for each message compute `start_index` from
the accumulated requests and append that message's requests. -/
def buildRequests (folderName : String) (conversations : List Message) :
    List Request :=
  conversations.foldl
    (fun reqs m => reqs ++ messageRequests (insertedLen reqs) m)
    (titleRequests folderName)

/-- Markdown line for one attachment, mirroring src/main.py lines 62-66. -/
def markdownAttachment : Attachment → String
  | Attachment.file name _ localPath _ _ _ _ _ =>
    "[Attachment: " ++ name ++ "](" ++ localPath ++ ")\n\n"
  | Attachment.link title url => "[" ++ title ++ "](" ++ url ++ ")\n\n"

/-- The markdown string built by `create_markdown` (src/main.py lines
58-72), without the file write. -/
def create_markdown (conversations : List Message) : String :=
  conversations.foldl
    (fun md m =>
      m.attachments.foldl (fun md2 a => md2 ++ markdownAttachment a)
        (md ++ "**[" ++ m.date ++ " " ++ m.time ++ "] - " ++ m.user
          ++ ":**\n\n" ++ m.text ++ "\n\n")
      ++ "----\n\n")
    "# Slack Conversation Log\n\n\n"

/-- The plain text contributed by one attachment's requests (used to
state the round-trip property): the concatenation of the texts its
`insertText` requests carry. -/
def attachmentPlainText : Attachment → String
  | Attachment.file name _ _ existsLocally _ mimeType webContentLink fileId =>
    if existsLocally then
      "\n\nAttachment: " ++ name ++ "\n\n"
        ++ (if strStartsWith mimeType "image/" then
              if webContentLink ≠ "" then ""
              else
                "Image could not be inserted. View it here: https://drive.google.com/file/d/"
                  ++ fileId ++ "/view\n\n"
            else
              "Link to file: https://drive.google.com/file/d/" ++ fileId
                ++ "/view\n\n")
    else ""
  | Attachment.link _ url => "\n\n" ++ url ++ "\n\n"

/-- Plain text of a list of attachments, in order. -/
def attachmentsPlainText : List Attachment → String
  | [] => ""
  | a :: rest => attachmentPlainText a ++ attachmentsPlainText rest

/-- Plain text contributed by one message: its header text followed by
its attachments' inserted texts. -/
def messagePlainText (m : Message) : String :=
  m.user ++ " [" ++ (m.date ++ " " ++ m.time) ++ "]: " ++ headerBody m.text
    ++ "\n\n" ++ attachmentsPlainText m.attachments

/-- Plain text of a conversation list, in message order. -/
def conversationsPlainText : List Message → String
  | [] => ""
  | m :: rest => messagePlainText m ++ conversationsPlainText rest

/-- Modelled from the spec: the spec's edge-case pattern "entire text
is a single bracket-wrapped URL" (whole-body match), used only to state
the claim about body suppression; the source itself has no whole-body
test.  A string satisfies it when it starts with `<http://` or
`<https://`, ends with `>`, and contains no space. -/
def isBracketWrappedURL (t : String) : Bool :=
  (strStartsWith t "<http://" || strStartsWith t "<https://")
    && strEndsWith t ">" && !(t.data.contains ' ')

/-- Build failure raised while assembling one message's requests: the
Drive upload of a file attachment raised (src/main.py lines 215-224
propagate any exception out of `create_formatted_googledoc` before
`batchUpdate` is reached). -/
inductive BuildError where
  | uploadError (name : String)
deriving DecidableEq, Repr

/-- Fallible variant of `attachmentRequests`: a file attachment whose
local file exists triggers an upload, which may raise. -/
def attachmentRequestsE (startIndex : Nat) (user timestamp text : String)
    (a : Attachment) : Except BuildError (List Request) :=
  match a with
  | Attachment.file name _ _ existsLocally uploadFails _ _ _ =>
    if existsLocally && uploadFails then
      Except.error (BuildError.uploadError name)
    else Except.ok (attachmentRequests startIndex user timestamp text a)
  | Attachment.link _ _ =>
    Except.ok (attachmentRequests startIndex user timestamp text a)

/-- Fallible requests for a list of attachments, failing at the first
attachment whose upload raises. -/
def attachmentsRequestsE (startIndex : Nat) (user timestamp text : String) :
    List Attachment → Except BuildError (List Request)
  | [] => Except.ok []
  | a :: rest =>
    match attachmentRequestsE startIndex user timestamp text a with
    | Except.error e => Except.error e
    | Except.ok r =>
      match attachmentsRequestsE startIndex user timestamp text rest with
      | Except.error e => Except.error e
      | Except.ok rs => Except.ok (r ++ rs)

/-- Fallible requests for one message. -/
def messageRequestsE (startIndex : Nat) (m : Message) :
    Except BuildError (List Request) :=
  let timestamp := m.date ++ " " ++ m.time
  let user := m.user
  let text := headerBody m.text
  match attachmentsRequestsE startIndex user timestamp text m.attachments with
  | Except.error e => Except.error e
  | Except.ok ar =>
    Except.ok
      ([Request.insertText startIndex
          (user ++ " [" ++ timestamp ++ "]: " ++ text ++ "\n\n"),
        Request.updateTextStyle startIndex
          (startIndex + user.length + timestamp.length + text.length + 5)
          (TextStyle.fontSize 11),
        Request.updateTextStyle startIndex (startIndex + user.length)
          TextStyle.bold,
        Request.updateTextStyle (startIndex + user.length + 1)
          (startIndex + user.length + timestamp.length + 3)
          (TextStyle.foregroundColor ⟨1/2, 1/2, 1/2⟩)]
        ++ ar)

/-- Fallible assembly loop over the messages. -/
def buildRequestsGo (reqs : List Request) :
    List Message → Except BuildError (List Request)
  | [] => Except.ok reqs
  | m :: rest =>
    match messageRequestsE (insertedLen reqs) m with
    | Except.error e => Except.error e
    | Except.ok mr => buildRequestsGo (reqs ++ mr) rest

/-- Fallible variant of `buildRequests`. -/
def buildRequestsE (folderName : String) (conversations : List Message) :
    Except BuildError (List Request) :=
  buildRequestsGo (titleRequests folderName) conversations

/-- Outcome of one run of `create_formatted_googledoc` after the
request stream is (or fails to be) assembled: success, a rejected
batch with the index-tagged dump printed at src/main.py lines 354-359,
or a build failure that aborted the run before submission. -/
inductive Outcome where
  | success
  | backendError (dump : List (Nat × Request))
  | buildFailure (e : BuildError)
deriving DecidableEq, Repr

/-- The submission step: the assembled stream is handed to
`batchUpdate` as one batch (`some reqs`); when assembly failed, nothing
is submitted (`none`).  `backendAccepts` models whether `batchUpdate`
raises `HttpError`.  On rejection the dump enumerates every request
with its index, as the `except` block does. -/
def runPipeline (folderName : String) (conversations : List Message)
    (backendAccepts : Bool) : Outcome × Option (List Request) :=
  match buildRequestsE folderName conversations with
  | Except.error e => (Outcome.buildFailure e, none)
  | Except.ok reqs =>
    if backendAccepts then (Outcome.success, some reqs)
    else (Outcome.backendError reqs.enum, some reqs)

/-- Whether some attachment of some message has an upload that raises. -/
def attachmentFails : Attachment → Bool
  | Attachment.file _ _ _ existsLocally uploadFails _ _ _ =>
    existsLocally && uploadFails
  | Attachment.link _ _ => false

/-- Whether some message of the conversation has a failing upload. -/
def hasFailingUpload (conversations : List Message) : Bool :=
  conversations.any (fun m => m.attachments.any attachmentFails)

/-- The single example message of spec section 8. -/
def msgAlice : Message :=
  ⟨"2024-01-01", "09:00:00", "Alice", "hi", []⟩

/-- The example message with one link attachment (spec section 8). -/
def msgLink : Message :=
  ⟨"2024-01-01", "09:00:00", "Alice", "hi",
    [Attachment.link "Site" "https://e.com"]⟩

/-- The example message with one image file attachment whose upload
succeeds and yields a public URI. -/
def msgImg : Message :=
  ⟨"2024-01-01", "09:00:00", "Alice", "hi",
    [Attachment.file "a.png" "u" "p" true false "image/png" "W" "F"]⟩

/-- The example message with an image file attachment followed by a
link attachment. -/
def msgImgLink : Message :=
  ⟨"2024-01-01", "09:00:00", "Alice", "hi",
    [Attachment.file "a.png" "u" "p" true false "image/png" "W" "F",
      Attachment.link "Site" "https://e.com"]⟩

/-- The example message with a file attachment whose upload raises. -/
def msgUpFail : Message :=
  ⟨"2024-01-01", "09:00:00", "Alice", "hi",
    [Attachment.file "a.png" "u" "p" true true "image/png" "W" "F"]⟩

theorem concatInserts_append (xs ys : List Request) :
    concatInserts (xs ++ ys) = concatInserts xs ++ concatInserts ys := by
  induction xs with
  | nil => rw [List.nil_append, concatInserts, String.empty_append]
  | cons a rest ih =>
    cases a with
    | insertText i t =>
      rw [List.cons_append, concatInserts, concatInserts, ih,
        String.append_assoc]
    | updateParagraphStyle i j n =>
      rw [List.cons_append]
      exact ih
    | updateTextStyle i j st =>
      rw [List.cons_append]
      exact ih
    | insertInlineImage i u h w =>
      rw [List.cons_append]
      exact ih

theorem attachmentsRequests_append (startIndex : Nat)
    (user timestamp text : String) (l1 l2 : List Attachment) :
    attachmentsRequests startIndex user timestamp text (l1 ++ l2)
      = attachmentsRequests startIndex user timestamp text l1
        ++ attachmentsRequests startIndex user timestamp text l2 := by
  induction l1 with
  | nil => rfl
  | cons a rest ih =>
    rw [List.cons_append, attachmentsRequests, attachmentsRequests, ih,
      List.append_assoc]

/-- C1: for every conversation list and title, the first text of the
stream is inserted at offset 1, and every message's header
`InsertText` offset equals 1 plus the sum of the lengths of all text
inserted earlier in the stream.  The code violates the second half:
`start_index` (src/main.py lines 152-154) is the plain sum of the
lengths of the previously inserted texts, without the `+ 1` for the
reserved index 0 that the hardcoded title insert at index 1 implies.
With title `"T"` the texts inserted before the first message have
total length 3, so the claim requires a header offset of 4, but the
stream carries the header at offset 3. -/
theorem c1_header_offset_omits_reserved_one :
    (buildRequests "T" [msgAlice])[0]?
        = some (Request.insertText 1 "T\n\n")
      ∧ (buildRequests "T" [msgAlice])[2]?
        = some (Request.insertText 3 "Alice [2024-01-01 09:00:00]: hi\n\n")
      ∧ insertedLen (titleRequests "T") = 3
      ∧ (3 : Nat) ≠ 1 + 3 := by
  refine ⟨rfl, rfl, rfl, by decide⟩

/-- C2: the claim states that in one message's stream every
`InsertText` appends at the buffer's current end and offsets are
monotonically non-decreasing.  The code violates both: for the example
message with a link attachment, the header (inserted at the entry
offset 1, 33 characters) grows the buffer to end 34, yet the link text
is inserted at offset 31, three positions inside the buffer; and for a
message with an image attachment followed by a link attachment the
stream emits the inline image at offset 51 and then inserts text at
offset 31, so offsets decrease. -/
theorem c2_stream_not_append_at_end :
    (messageRequests 1 msgLink)[0]?
        = some (Request.insertText 1 "Alice [2024-01-01 09:00:00]: hi\n\n")
      ∧ ("Alice [2024-01-01 09:00:00]: hi\n\n").length = 33
      ∧ (messageRequests 1 msgLink)[4]?
        = some (Request.insertText 31 "\n\nhttps://e.com\n\n")
      ∧ 31 ≠ 1 + 33
      ∧ (messageRequests 1 msgImgLink)[5]?
        = some (Request.insertInlineImage 51 "W" 200 200)
      ∧ (messageRequests 1 msgImgLink)[6]?
        = some (Request.insertText 31 "\n\nhttps://e.com\n\n")
      ∧ 31 < 51 := by
  refine ⟨rfl, rfl, rfl, by decide, by decide, by decide, by decide⟩

/-- C3 counterexample: the claim asserts that for the example message
(at entry offset 1) the timestamp-color `StyleRange` is `[7, 29)`; the
stream built by the code contains no such request (its timestamp-color
range is `[7, 28)`, as the claim's own formula also gives). -/
theorem c3_timestamp_range_counterexample :
    Request.updateTextStyle 7 29 (TextStyle.foregroundColor ⟨1/2, 1/2, 1/2⟩)
        ∉ messageRequests 1 msgAlice
      ∧ (messageRequests 1 msgAlice)[3]?
        = some (Request.updateTextStyle 7 28
            (TextStyle.foregroundColor ⟨1/2, 1/2, 1/2⟩)) := by
  refine ⟨by decide, rfl⟩

/-- C3 (amended): for every message the builder emits the header
`InsertText` with text `author ++ " [" ++ date ++ " " ++ time ++ "]: "
++ body ++ "\n\n"` at the entry offset, a bold `StyleRange` over
`[start, start + len author)`, and a timestamp-color `StyleRange` over
`[start + len author + 1, start + len author + len date + 1 + 1 +
len time + 2)`; for the example message at entry offset 1 the header
insert is `"Alice [2024-01-01 09:00:00]: hi\n\n"`, the bold range is
`[1, 6)` and the timestamp-color range is `[7, 28)` (not `[7, 29)` as
the claim's example states). -/
theorem c3_header_ranges (s : Nat) (date time user text : String)
    (as : List Attachment) :
    ((messageRequests s ⟨date, time, user, text, as⟩)[0]?
        = some (Request.insertText s
            (user ++ " [" ++ (date ++ " " ++ time) ++ "]: "
              ++ headerBody text ++ "\n\n"))
      ∧ (messageRequests s ⟨date, time, user, text, as⟩)[2]?
        = some (Request.updateTextStyle s (s + user.length) TextStyle.bold)
      ∧ (messageRequests s ⟨date, time, user, text, as⟩)[3]?
        = some (Request.updateTextStyle (s + user.length + 1)
            (s + user.length + date.length + 1 + 1 + time.length + 2)
            (TextStyle.foregroundColor ⟨1/2, 1/2, 1/2⟩)))
      ∧ ((messageRequests 1 msgAlice)[0]?
          = some (Request.insertText 1 "Alice [2024-01-01 09:00:00]: hi\n\n")
        ∧ (messageRequests 1 msgAlice)[2]?
          = some (Request.updateTextStyle 1 6 TextStyle.bold)
        ∧ (messageRequests 1 msgAlice)[3]?
          = some (Request.updateTextStyle 7 28
              (TextStyle.foregroundColor ⟨1/2, 1/2, 1/2⟩))) := by
  have hts : (date ++ " " ++ time).length = date.length + 1 + time.length := by
    rw [String.length_append, String.length_append]
    rfl
  refine ⟨⟨rfl, rfl, ?_⟩, rfl, rfl, rfl⟩
  have key : s + user.length + date.length + 1 + 1 + time.length + 2
      = s + user.length + (date ++ " " ++ time).length + 3 := by
    omega
  rw [key]
  unfold messageRequests
  simp only [List.cons_append, List.getElem?_cons_succ, List.getElem?_cons_zero]

/-- C4: the claim states that for a Link attachment the hyperlink
`StyleRange` covers exactly the URL substring of the inserted
`"\n\n" ++ url ++ "\n\n"` text.  The code violates this: for the
example message with `Link "Site" "https://e.com"` the text is
inserted at offset 31 (17 characters, URL substring at `[33, 46)`),
but the hyperlink style spans `[31, 50)` — it starts on the leading
newlines and ends two positions past the end of the inserted text. -/
theorem c4_hyperlink_range_bug :
    (messageRequests 1 msgLink)[4]?
        = some (Request.insertText 31 "\n\nhttps://e.com\n\n")
      ∧ ("\n\nhttps://e.com\n\n").length = 17
      ∧ ("https://e.com").length = 13
      ∧ (messageRequests 1 msgLink)[5]?
        = some (Request.updateTextStyle 31 50 (TextStyle.link "https://e.com"))
      ∧ 31 < 33
      ∧ 31 + 17 < 50 := by
  refine ⟨rfl, rfl, rfl, rfl, by decide, by decide⟩

/-- C5 counterexample: the claim places the `InsertInlineImage` offset
"exactly the position just past the end of the caption text"; for the
example image attachment (caption inserted at 31, 21 characters, so
just past the caption is 52) the stream carries the image at offset 51
and contains no image operation at 52. -/
theorem c5_image_not_past_caption :
    (messageRequests 1 msgImg)[4]?
        = some (Request.insertText 31 "\n\nAttachment: a.png\n\n")
      ∧ ("\n\nAttachment: a.png\n\n").length = 21
      ∧ (messageRequests 1 msgImg)[5]?
        = some (Request.insertInlineImage 51 "W" 200 200)
      ∧ Request.insertInlineImage 52 "W" 200 200 ∉ messageRequests 1 msgImg
      ∧ 51 ≠ 31 + 21 := by
  refine ⟨by decide, rfl, by decide, by decide, by decide⟩

/-- C5 (amended): for every File attachment that exists locally, is an
image, and has a nonempty public URI, the builder emits the caption
`InsertText` `"\n\nAttachment: " ++ displayName ++ "\n\n"` and then an
`InsertInlineImage` at the offset one before the position just past
the caption text (i.e. just before the caption's final newline), with
a fixed 200×200pt size. -/
theorem c5_image_offset (s : Nat) (user timestamp text name url lp : String)
    (uf : Bool) (mt wcl fid : String)
    (him : strStartsWith mt "image/" = true) (hw : wcl ≠ "") :
    attachmentRequests s user timestamp text
        (Attachment.file name url lp true uf mt wcl fid)
      = [Request.insertText
            (s + user.length + timestamp.length + text.length + 4)
            ("\n\nAttachment: " ++ name ++ "\n\n"),
          Request.insertInlineImage
            (s + user.length + timestamp.length + text.length + 4
              + ("\n\nAttachment: " ++ name ++ "\n\n").length - 1)
            wcl 200 200] := by
  have h14 : ("\n\nAttachment: " : String).length = 14 := rfl
  have h2 : ("\n\n" : String).length = 2 := rfl
  have hkey : s + user.length + timestamp.length + text.length + 4
        + ("\n\nAttachment: " ++ name ++ "\n\n").length - 1
      = s + user.length + timestamp.length + text.length + 5
        + name.length + 14 := by
    rw [String.length_append, String.length_append, h14, h2]
    omega
  rw [hkey]
  simp [attachmentRequests, him, hw]

/-- C5 witness: the amended statement evaluated at the concrete example
image attachment. -/
theorem c5_image_offset_witness :
    strStartsWith "image/png" "image/" = true
      ∧ ("W" : String) ≠ ""
      ∧ attachmentRequests 1 "Alice" "2024-01-01 09:00:00" "hi"
          (Attachment.file "a.png" "u" "p" true false "image/png" "W" "F")
        = [Request.insertText
              (1 + ("Alice" : String).length
                + ("2024-01-01 09:00:00" : String).length
                + ("hi" : String).length + 4)
              ("\n\nAttachment: " ++ "a.png" ++ "\n\n"),
            Request.insertInlineImage
              (1 + ("Alice" : String).length
                + ("2024-01-01 09:00:00" : String).length
                + ("hi" : String).length + 4
                + ("\n\nAttachment: " ++ "a.png" ++ "\n\n").length - 1)
              "W" 200 200] :=
  ⟨by decide, by decide,
    c5_image_offset 1 "Alice" "2024-01-01 09:00:00" "hi" "a.png" "u" "p"
      false "image/png" "W" "F" (by decide) (by decide)⟩

/-- C6 counterexample: the claim says the body is rendered empty if and
only if the entire body is a single bracket-wrapped URL; the body
`"<https://x> hi"` is not a whole-body bracket-wrapped URL, yet the
code renders it as the empty string (the detection is a prefix match). -/
theorem c6_suppression_not_whole_body :
    headerBody "<https://x> hi" = ""
      ∧ isBracketWrappedURL "<https://x> hi" = false := by
  refine ⟨by decide, by decide⟩

/-- C6 (amended): the header's body segment is rendered as the empty
string if and only if the body starts with `<http://` or `<https://`
(a prefix match, not a whole-body match) or the body is itself empty;
in particular a body exactly `"<https://x/y>"` produces a header with
an empty trailing body segment. -/
theorem c6_body_suppression_prefix_rule :
    (∀ t : String, headerBody t = ""
        ↔ ((strStartsWith t "<http://" || strStartsWith t "<https://") = true
            ∨ t = ""))
      ∧ headerBody "<https://x/y>" = "" := by
  constructor
  · intro t
    unfold headerBody
    by_cases h : (strStartsWith t "<http://" || strStartsWith t "<https://")
        = true
    · simp [h]
    · simp [h]
  · decide

theorem attachment_plain (s : Nat) (u t x : String) (a : Attachment) :
    concatInserts (attachmentRequests s u t x a) = attachmentPlainText a := by
  cases a with
  | file name url lp el uf mt wcl fid =>
    cases el with
    | false => rfl
    | true =>
      by_cases him : strStartsWith mt "image/" = true
      · by_cases hw : wcl ≠ ""
        · simp [attachmentRequests, attachmentPlainText, him, hw,
            concatInserts, String.append_empty]
        · simp [attachmentRequests, attachmentPlainText, him, hw,
            concatInserts, String.append_empty]
      · simp [attachmentRequests, attachmentPlainText, him,
          concatInserts, String.append_empty]
  | link t2 url =>
    simp [attachmentRequests, attachmentPlainText, concatInserts,
      String.append_empty]

theorem attachments_plain (s : Nat) (u t x : String) (as : List Attachment) :
    concatInserts (attachmentsRequests s u t x as)
      = attachmentsPlainText as := by
  induction as with
  | nil => rfl
  | cons a rest ih =>
    rw [attachmentsRequests, attachmentsPlainText, concatInserts_append,
      attachment_plain, ih]

theorem message_plain (s : Nat) (m : Message) :
    concatInserts (messageRequests s m) = messagePlainText m := by
  unfold messageRequests messagePlainText
  rw [concatInserts_append, attachments_plain]
  simp only [concatInserts, String.append_empty]

theorem build_plain (msgs : List Message) (reqs : List Request) :
    concatInserts
        (List.foldl (fun reqs m => reqs ++ messageRequests (insertedLen reqs) m)
          reqs msgs)
      = concatInserts reqs ++ conversationsPlainText msgs := by
  induction msgs generalizing reqs with
  | nil => rw [List.foldl_nil, conversationsPlainText, String.append_empty]
  | cons m rest ih =>
    rw [List.foldl_cons, ih, concatInserts_append, message_plain,
      conversationsPlainText, String.append_assoc]

/-- C7 counterexample: the claim says that stripping style and image
operations and concatenating the remaining inserted texts yields,
modulo the title block, the markdown rendering of the same messages.
For the single example message the doc stream's text after its title
block is `"Alice [2024-01-01 09:00:00]: hi\n\n"`, while the markdown
after its title block is
`"**[2024-01-01 09:00:00] - Alice:**\n\nhi\n\n----\n\n"` — a different
string (different header format, and a `----` separator). -/
theorem c7_not_markdown :
    concatInserts (buildRequests "T" [msgAlice])
        = "T\n\n" ++ "Alice [2024-01-01 09:00:00]: hi\n\n"
      ∧ create_markdown [msgAlice]
        = "# Slack Conversation Log\n\n\n"
          ++ "**[2024-01-01 09:00:00] - Alice:**\n\nhi\n\n----\n\n"
      ∧ ("Alice [2024-01-01 09:00:00]: hi\n\n" : String)
        ≠ "**[2024-01-01 09:00:00] - Alice:**\n\nhi\n\n----\n\n" := by
  refine ⟨by decide, by decide, by decide⟩

/-- C7 (amended): stripping all style and image operations from the
assembled stream and concatenating the remaining inserted texts in
emission order yields the title block followed by, for each message in
order, its header text and its attachments' inserted texts — the
document's own plain rendering, which is not the markdown rendering
(`create_markdown` uses a different header format and separators). -/
theorem c7_stream_text (folderName : String) (conversations : List Message) :
    concatInserts (buildRequests folderName conversations)
      = (folderName ++ "\n\n") ++ conversationsPlainText conversations := by
  unfold buildRequests
  rw [build_plain]
  simp only [titleRequests, concatInserts, String.append_empty]

/-- C8: a File attachment whose local resource is missing contributes
no operations, and the whole stream is as if the attachment were
absent: removing it from its message leaves `buildRequests` unchanged
for every title and surrounding conversation. -/
theorem c8_missing_attachment_skip (folderName : String)
    (pre post : List Message) (date time user text : String)
    (as1 as2 : List Attachment) (name url lp : String) (uf : Bool)
    (mt wcl fid : String) :
    buildRequests folderName
        (pre ++ ⟨date, time, user, text,
          as1 ++ Attachment.file name url lp false uf mt wcl fid :: as2⟩
          :: post)
      = buildRequests folderName
          (pre ++ ⟨date, time, user, text, as1 ++ as2⟩ :: post)
      ∧ ∀ (s : Nat) (u t x : String),
        attachmentRequests s u t x
            (Attachment.file name url lp false uf mt wcl fid)
          = [] := by
  have hempty : ∀ (s : Nat) (u t x : String),
      attachmentRequests s u t x
          (Attachment.file name url lp false uf mt wcl fid)
        = [] := fun s u t x => rfl
  have hmsg : ∀ s : Nat,
      messageRequests s ⟨date, time, user, text,
          as1 ++ Attachment.file name url lp false uf mt wcl fid :: as2⟩
        = messageRequests s ⟨date, time, user, text, as1 ++ as2⟩ := by
    intro s
    simp only [messageRequests]
    rw [attachmentsRequests_append, attachmentsRequests_append,
      attachmentsRequests, hempty, List.nil_append]
  refine ⟨?_, hempty⟩
  unfold buildRequests
  simp only [List.foldl_append, List.foldl_cons]
  rw [hmsg]

/-- C10: attachment operation offsets are computed from the entry
offset and the header fields alone — the requests emitted for an
attachment do not depend on earlier attachments of the same message —
and in particular two Link attachments on the same message produce
their `InsertText` operations at the identical offset. -/
theorem c10_attachment_offsets_independent :
    (∀ (s : Nat) (date time user text : String) (as : List Attachment)
        (a : Attachment),
      messageRequests s ⟨date, time, user, text, as ++ [a]⟩
        = messageRequests s ⟨date, time, user, text, as⟩
          ++ attachmentRequests s user (date ++ " " ++ time)
              (headerBody text) a)
      ∧ ∀ (s : Nat) (date time user text t1 u1 t2 u2 : String),
        (messageRequests s ⟨date, time, user, text,
            [Attachment.link t1 u1, Attachment.link t2 u2]⟩)[4]?
          = some (Request.insertText
              (s + user.length + (date ++ " " ++ time).length
                + (headerBody text).length + 4)
              ("\n\n" ++ u1 ++ "\n\n"))
        ∧ (messageRequests s ⟨date, time, user, text,
            [Attachment.link t1 u1, Attachment.link t2 u2]⟩)[6]?
          = some (Request.insertText
              (s + user.length + (date ++ " " ++ time).length
                + (headerBody text).length + 4)
              ("\n\n" ++ u2 ++ "\n\n")) := by
  constructor
  · intro s date time user text as a
    simp only [messageRequests]
    rw [attachmentsRequests_append, attachmentsRequests, attachmentsRequests,
      List.append_nil, List.append_assoc]
  · intro s date time user text t1 u1 t2 u2
    simp only [messageRequests]
    simp only [attachmentsRequests, attachmentRequests, List.append_nil,
      List.cons_append, List.nil_append, List.getElem?_cons_succ,
      List.getElem?_cons_zero]
    exact ⟨trivial, trivial⟩

theorem attachmentRequestsE_fail (s : Nat) (u t x : String) (a : Attachment)
    (h : attachmentFails a = true) :
    ∃ e, attachmentRequestsE s u t x a = Except.error e := by
  cases a with
  | file name url lp el uf mt wcl fid =>
    refine ⟨BuildError.uploadError name, ?_⟩
    simp only [attachmentFails] at h
    simp [attachmentRequestsE, h]
  | link t2 u2 => simp [attachmentFails] at h

theorem attachmentRequestsE_ok (s : Nat) (u t x : String) (a : Attachment)
    (h : attachmentFails a = false) :
    attachmentRequestsE s u t x a
      = Except.ok (attachmentRequests s u t x a) := by
  cases a with
  | file name url lp el uf mt wcl fid =>
    simp only [attachmentFails] at h
    simp [attachmentRequestsE, h]
  | link t2 u2 => rfl

theorem attachmentsRequestsE_fail (s : Nat) (u t x : String)
    (as : List Attachment) (h : as.any attachmentFails = true) :
    ∃ e, attachmentsRequestsE s u t x as = Except.error e := by
  induction as with
  | nil => simp at h
  | cons a rest ih =>
    cases hfa : attachmentFails a with
    | true =>
      obtain ⟨e, he⟩ := attachmentRequestsE_fail s u t x a hfa
      exact ⟨e, by simp [attachmentsRequestsE, he]⟩
    | false =>
      have hrest : rest.any attachmentFails = true := by
        rw [List.any_cons, hfa] at h
        simpa using h
      obtain ⟨e, he⟩ := ih hrest
      refine ⟨e, ?_⟩
      simp [attachmentsRequestsE, attachmentRequestsE_ok s u t x a hfa, he]

theorem messageRequestsE_fail (s : Nat) (m : Message)
    (h : m.attachments.any attachmentFails = true) :
    ∃ e, messageRequestsE s m = Except.error e := by
  obtain ⟨e, he⟩ := attachmentsRequestsE_fail s m.user
    (m.date ++ " " ++ m.time) (headerBody m.text) m.attachments h
  exact ⟨e, by simp [messageRequestsE, he]⟩

theorem buildRequestsGo_fail (msgs : List Message) (reqs : List Request)
    (h : msgs.any (fun m => m.attachments.any attachmentFails) = true) :
    ∃ e, buildRequestsGo reqs msgs = Except.error e := by
  induction msgs generalizing reqs with
  | nil => simp at h
  | cons m rest ih =>
    cases hm : m.attachments.any attachmentFails with
    | true =>
      obtain ⟨e, he⟩ := messageRequestsE_fail (insertedLen reqs) m hm
      exact ⟨e, by simp [buildRequestsGo, he]⟩
    | false =>
      have hrest : rest.any (fun m => m.attachments.any attachmentFails)
          = true := by
        rw [List.any_cons, hm] at h
        simpa using h
      cases hok : messageRequestsE (insertedLen reqs) m with
      | error e => exact ⟨e, by simp [buildRequestsGo, hok]⟩
      | ok mr =>
        obtain ⟨e, he⟩ := ih (reqs ++ mr) hrest
        exact ⟨e, by simp [buildRequestsGo, hok, he]⟩

/-- C9: when the backend rejects the submitted batch, the surfaced
outcome carries the index-tagged dump of the entire constructed
operation list; and when any message's build fails (an attachment
upload raises), the run aborts with nothing submitted to the backend —
no partial batch is ever committed. -/
theorem c9_error_handling (folderName : String)
    (conversations : List Message) :
    (∀ reqs, buildRequestsE folderName conversations = Except.ok reqs →
        runPipeline folderName conversations false
          = (Outcome.backendError reqs.enum, some reqs))
      ∧ ∀ b, hasFailingUpload conversations = true →
        (runPipeline folderName conversations b).2 = none := by
  constructor
  · intro reqs h
    unfold runPipeline
    rw [h]
    rfl
  · intro b h
    unfold hasFailingUpload at h
    obtain ⟨e, he⟩ := buildRequestsGo_fail conversations
      (titleRequests folderName) h
    unfold runPipeline buildRequestsE
    rw [he]

/-- C9 witness: the two halves of the statement evaluated on concrete
runs — a backend rejection over the example message, and an aborted
build (nothing submitted) for a message whose attachment upload fails. -/
theorem c9_error_handling_witness :
    runPipeline "T" [msgAlice] false
        = (Outcome.backendError (buildRequests "T" [msgAlice]).enum,
            some (buildRequests "T" [msgAlice]))
      ∧ (runPipeline "T" [msgUpFail] true).2 = none :=
  ⟨(c9_error_handling "T" [msgAlice]).1 (buildRequests "T" [msgAlice]) rfl,
    (c9_error_handling "T" [msgUpFail]).2 true (by decide)⟩

end SD
